import Mathlib

/-
Verification of the notebook-to-cloud backend.

This file gives a shallow embedding, in Lean, of the parts of the
repository that the verified properties talk about:

  * app/core/gemini.py        — GeminiService.calculate_health_score
  * app/core/parser.py        — NotebookParser.extract_code_cells,
                                 _build_main_content, generate_main_py
  * app/api/v1/model_versions.py — validate_magic_bytes,
                                 upload_model_version_internal,
                                 activate_model_version
  * app/api/v1/notebooks.py   — upload_notebook, analyze_notebook
  * app/api/v1/deployments.py — the build-status polling loop of
                                 process_deployment
  * app/api/v1/webhooks.py    — github_webhook, handle_github_push,
                                 gitlab_webhook
  * app/config.py             — the Settings fields the webhooks read

Conventions: Python dict fields that may be absent are Option; Python
exceptions become Except / explicit outcome constructors; byte strings
become List Nat (each entry one byte); external services (object storage,
the build API, HMAC) are abstracted as function parameters, since their
internals live in vendored client libraries outside the repository.
-/

namespace Codematics

/-! ## Health score — app/core/gemini.py, GeminiService.calculate_health_score -/

/-- One entry of the analysis issues list. The source reads only the
severity key of each issue dict; a missing key is modelled as none
(the source uses a dict get with default "low"). -/
structure Issue where
  severity : Option String
  deriving DecidableEq, Repr

/-- Deduction applied for one severity string: the if/elif chain of
calculate_health_score. Unrecognized severities subtract nothing. -/
def severityDeduction (sev : String) : Int :=
  if sev = "critical" then 20
  else if sev = "high" then 10
  else if sev = "medium" then 5
  else if sev = "low" then 2
  else 0

/-- Effective severity of an issue: the source evaluates the dict get
of the severity key with default value "low". -/
def issueSeverity (i : Issue) : String :=
  i.severity.getD "low"

/-- GeminiService.calculate_health_score: start at 100, subtract the
per-issue deduction in a loop, clamp to the 0..100 range. -/
def calculate_health_score (issues : List Issue) : Int :=
  let score := issues.foldl (fun s i => s - severityDeduction (issueSeverity i)) 100
  max 0 (min 100 score)

/-- Number of issues whose effective severity equals the given string. -/
def effSeverityCount (issues : List Issue) (sev : String) : Nat :=
  issues.countP (fun i => issueSeverity i == sev)

/-- Number of issues whose severity field is literally the given string. -/
def litSeverityCount (issues : List Issue) (sev : String) : Nat :=
  issues.countP (fun i => i.severity == some sev)

theorem foldl_sub_deduction (issues : List Issue) (a : Int) :
    issues.foldl (fun s i => s - severityDeduction (issueSeverity i)) a =
      a - (issues.map (fun i => severityDeduction (issueSeverity i))).sum := by
  induction issues generalizing a with
  | nil => simp
  | cons x xs ih =>
    simp only [List.foldl_cons, List.map_cons, List.sum_cons, ih]
    ring

theorem severityDeduction_split (s : String) :
    severityDeduction s =
      20 * (if s = "critical" then (1 : Int) else 0) +
      10 * (if s = "high" then (1 : Int) else 0) +
      5 * (if s = "medium" then (1 : Int) else 0) +
      2 * (if s = "low" then (1 : Int) else 0) := by
  unfold severityDeduction
  by_cases h1 : s = "critical" <;> by_cases h2 : s = "high" <;>
    by_cases h3 : s = "medium" <;> by_cases h4 : s = "low" <;>
    simp_all

theorem sum_deduction_counts (issues : List Issue) :
    (issues.map (fun i => severityDeduction (issueSeverity i))).sum =
      20 * (effSeverityCount issues "critical" : Int) +
      10 * (effSeverityCount issues "high" : Int) +
      5 * (effSeverityCount issues "medium" : Int) +
      2 * (effSeverityCount issues "low" : Int) := by
  induction issues with
  | nil => simp [effSeverityCount]
  | cons x xs ih =>
    simp only [List.map_cons, List.sum_cons, ih, effSeverityCount, List.countP_cons]
    rw [severityDeduction_split (issueSeverity x)]
    by_cases h1 : issueSeverity x = "critical" <;>
      by_cases h2 : issueSeverity x = "high" <;>
      by_cases h3 : issueSeverity x = "medium" <;>
      by_cases h4 : issueSeverity x = "low" <;>
      simp_all <;> ring

theorem health_score_effective_counts (issues : List Issue) :
    calculate_health_score issues =
      max 0 (min 100 (100 -
        (20 * (effSeverityCount issues "critical" : Int) +
         10 * (effSeverityCount issues "high" : Int) +
         5 * (effSeverityCount issues "medium" : Int) +
         2 * (effSeverityCount issues "low" : Int)))) := by
  unfold calculate_health_score
  rw [foldl_sub_deduction, sum_deduction_counts]

/-- C3. For every list of issues whose severities are all recognized, the
health score equals 100 minus 20 per critical, 10 per high, 5 per medium
and 2 per low issue, clamped to 0..100; one critical plus one medium issue
scores 75, five critical issues score 0, and no issues score exactly 100. -/
theorem health_score_severity_formula :
    (∀ issues : List Issue,
      (∀ i ∈ issues, i.severity = some "critical" ∨ i.severity = some "high" ∨
        i.severity = some "medium" ∨ i.severity = some "low") →
      calculate_health_score issues =
        max 0 (min 100 (100 -
          (20 * (litSeverityCount issues "critical" : Int) +
           10 * (litSeverityCount issues "high" : Int) +
           5 * (litSeverityCount issues "medium" : Int) +
           2 * (litSeverityCount issues "low" : Int))))) ∧
    calculate_health_score [⟨some "critical"⟩, ⟨some "medium"⟩] = 75 ∧
    calculate_health_score (List.replicate 5 ⟨some "critical"⟩) = 0 ∧
    calculate_health_score [] = 100 := by
  refine ⟨?_, by decide, by decide, by decide⟩
  intro issues h
  rw [health_score_effective_counts]
  have hc : ∀ sev : String, sev ≠ "" →
      effSeverityCount issues sev = litSeverityCount issues sev := by
    intro sev _
    unfold effSeverityCount litSeverityCount
    apply List.countP_congr
    intro i hi
    rcases h i hi with h' | h' | h' | h' <;> simp [issueSeverity, h']
  rw [hc "critical" (by decide), hc "high" (by decide),
    hc "medium" (by decide), hc "low" (by decide)]

/-- Witness for C3: the formula instantiated on a concrete issue list. -/
theorem health_score_severity_formula_witness :
    (∀ i ∈ [(⟨some "critical"⟩ : Issue), ⟨some "low"⟩],
      i.severity = some "critical" ∨ i.severity = some "high" ∨
        i.severity = some "medium" ∨ i.severity = some "low") ∧
    calculate_health_score [⟨some "critical"⟩, ⟨some "low"⟩] =
      max 0 (min 100 (100 -
        (20 * (litSeverityCount [⟨some "critical"⟩, ⟨some "low"⟩] "critical" : Int) +
         10 * (litSeverityCount [⟨some "critical"⟩, ⟨some "low"⟩] "high" : Int) +
         5 * (litSeverityCount [⟨some "critical"⟩, ⟨some "low"⟩] "medium" : Int) +
         2 * (litSeverityCount [⟨some "critical"⟩, ⟨some "low"⟩] "low" : Int)))) :=
  ⟨by decide, health_score_severity_formula.1 _ (by decide)⟩

/-- C10. An issue with an absent severity field is counted as low
(subtracting 2), an issue with an unrecognized severity subtracts
nothing, and the score is determined by the counts of effective
severities alone (absent mapping to low). -/
theorem health_score_malformed_issues :
    (∀ issues : List Issue,
      calculate_health_score issues =
        max 0 (min 100 (100 -
          (20 * (effSeverityCount issues "critical" : Int) +
           10 * (effSeverityCount issues "high" : Int) +
           5 * (effSeverityCount issues "medium" : Int) +
           2 * (effSeverityCount issues "low" : Int))))) ∧
    calculate_health_score [⟨none⟩] = 98 ∧
    calculate_health_score [⟨some "catastrophic"⟩] = 100 ∧
    calculate_health_score [⟨none⟩, ⟨some "catastrophic"⟩, ⟨some "critical"⟩] = 78 :=
  ⟨health_score_effective_counts, by decide, by decide, by decide⟩

/-! ## Notebook parser — app/core/parser.py, NotebookParser -/

/-- Characters stripped by the Python str.strip and str.rstrip calls of
the parser (the ASCII whitespace set). -/
def pyIsSpace (c : Char) : Bool :=
  c = ' ' || c = '\t' || c = '\n' || c = '\r' || c = Char.ofNat 11 || c = Char.ofNat 12

/-- Python str.rstrip with no argument. -/
def pyRstrip (s : String) : String :=
  ⟨(s.data.reverse.dropWhile pyIsSpace).reverse⟩

/-- Python str.strip with no argument. -/
def pyStrip (s : String) : String :=
  ⟨((s.data.dropWhile pyIsSpace).reverse.dropWhile pyIsSpace).reverse⟩

/-- Value of the source key of a notebook cell: the source treats a list
of strings (joined with an empty separator) and a bare string. A cell
without a source key defaults to the empty list. -/
inductive PySource where
  | strList : List String → PySource
  | str : String → PySource
  deriving DecidableEq, Repr

/-- One cell of the uploaded notebook JSON document. A missing cell_type
key is modelled as none. -/
structure NbCell where
  cell_type : Option String
  source : PySource
  deriving DecidableEq, Repr

/-- Joined source text of one cell, as computed by extract_code_cells. -/
def cellCode (c : NbCell) : String :=
  match c.source with
  | .strList l => String.join l
  | .str s => s

/-- NotebookParser.extract_code_cells: keep the joined source of every
cell whose cell_type is code and whose stripped text is non-empty. -/
def extract_code_cells (cells : List NbCell) : List String :=
  cells.filterMap fun cell =>
    if cell.cell_type == some "code" then
      if pyStrip (cellCode cell) ≠ "" then some (cellCode cell) else none
    else none

/-- Loop body of NotebookParser._build_main_content: enumerate the
retained cells from 1, right-strip each, and keep a marker-prefixed
section for every cell whose right-stripped text is non-empty. -/
def buildSections : Nat → List String → List String
  | _, [] => []
  | idx, code :: rest =>
    let code' := pyRstrip code
    if code' ≠ "" then ("# Cell " ++ toString idx ++ "\n" ++ code') :: buildSections (idx + 1) rest
    else buildSections (idx + 1) rest

/-- NotebookParser._build_main_content: sections joined by a blank line,
with a trailing newline. -/
def build_main_content (code_cells : List String) : String :=
  String.intercalate "\n\n" (buildSections 1 code_cells) ++ "\n"

/-- NotebookParser.generate_main_py on the already-extracted cells: fails
when no code cells were retained, otherwise builds the program text. -/
def generate_main_py (cells : List NbCell) : Except String String :=
  let cs := extract_code_cells cells
  if cs.isEmpty then Except.error "No code cells found in notebook"
  else Except.ok (build_main_content cs)

/-- Modelled from the spec wording for comparison: one section per
retained cell, prefixed with a 1-based cell marker, in order, with no
cell skipped. -/
def specCellSections : Nat → List String → List String
  | _, [] => []
  | idx, code :: rest =>
    ("# Cell " ++ toString idx ++ "\n" ++ pyRstrip code) :: specCellSections (idx + 1) rest

theorem pyRstrip_empty_of_all_space (s : String)
    (h : ∀ c ∈ s.data, pyIsSpace c) : pyRstrip s = "" := by
  unfold pyRstrip
  have : s.data.reverse.dropWhile pyIsSpace = [] := by
    rw [List.dropWhile_eq_nil_iff]
    intro c hc
    exact h c (List.mem_reverse.mp hc)
  rw [this]
  rfl

theorem pyStrip_ne_empty_rstrip (s : String) (h : pyStrip s ≠ "") :
    pyRstrip s ≠ "" := by
  intro hr
  apply h
  have hall : ∀ c ∈ s.data, pyIsSpace c := by
    have hnil : s.data.reverse.dropWhile pyIsSpace = [] := by
      have := congrArg String.data hr
      simpa [pyRstrip] using this
    rw [List.dropWhile_eq_nil_iff] at hnil
    intro c hc
    exact hnil c (List.mem_reverse.mpr hc)
  unfold pyStrip
  have h1 : s.data.dropWhile pyIsSpace = [] := by
    rw [List.dropWhile_eq_nil_iff]
    exact hall
  rw [h1]
  rfl

theorem extract_code_cells_stripped (cells : List NbCell) :
    ∀ c ∈ extract_code_cells cells, pyStrip c ≠ "" := by
  intro c hc
  unfold extract_code_cells at hc
  rw [List.mem_filterMap] at hc
  obtain ⟨cell, _, hcell⟩ := hc
  split_ifs at hcell with h1 h2
  rw [Option.some.injEq] at hcell
  rwa [← hcell]

theorem buildSections_eq_spec (cs : List String) (idx : Nat)
    (h : ∀ c ∈ cs, pyRstrip c ≠ "") :
    buildSections idx cs = specCellSections idx cs := by
  induction cs generalizing idx with
  | nil => rfl
  | cons x xs ih =>
    unfold buildSections specCellSections
    have hx : pyRstrip x ≠ "" := h x (List.mem_cons_self x xs)
    rw [if_pos hx, ih (idx + 1) (fun c hc => h c (List.mem_cons_of_mem x hc))]

theorem specCellSections_length (cs : List String) (idx : Nat) :
    (specCellSections idx cs).length = cs.length := by
  induction cs generalizing idx with
  | nil => rfl
  | cons x xs ih =>
    unfold specCellSections
    simp [ih]

theorem specCellSections_get_opt (cs : List String) (idx i : Nat) :
    (specCellSections idx cs).get? i =
      (cs.get? i).map (fun c => "# Cell " ++ toString (idx + i) ++ "\n" ++ pyRstrip c) := by
  induction cs generalizing idx i with
  | nil => simp [specCellSections]
  | cons x xs ih =>
    cases i with
    | zero => simp [specCellSections]
    | succ j =>
      have harith : idx + 1 + j = idx + (j + 1) := by omega
      simp only [specCellSections, List.get?_cons_succ, ih (idx + 1) j, harith]

theorem specCellSections_get (cs : List String) (idx i : Nat)
    (h1 : i < (specCellSections idx cs).length) (h2 : i < cs.length) :
    (specCellSections idx cs).get ⟨i, h1⟩ =
      "# Cell " ++ toString (idx + i) ++ "\n" ++ pyRstrip (cs.get ⟨i, h2⟩) := by
  have h := specCellSections_get_opt cs idx i
  rw [List.get?_eq_get h1, List.get?_eq_get h2] at h
  simpa using h

/-- C4. For every notebook document, when at least one non-empty code
cell is retained, the generated program is the blank-line join of one
section per retained cell, each section carrying a cell marker numbered
consecutively from 1 in document order, with a trailing newline; when no
code cell is retained, generation fails with the no-code-cells error. -/
theorem generate_main_py_cell_markers (cells : List NbCell) :
    (extract_code_cells cells = [] →
      generate_main_py cells = Except.error "No code cells found in notebook") ∧
    (extract_code_cells cells ≠ [] →
      generate_main_py cells =
        Except.ok (String.intercalate "\n\n"
          (specCellSections 1 (extract_code_cells cells)) ++ "\n") ∧
      (specCellSections 1 (extract_code_cells cells)).length =
        (extract_code_cells cells).length ∧
      ∀ i (h1 : i < (specCellSections 1 (extract_code_cells cells)).length)
        (h2 : i < (extract_code_cells cells).length),
        (specCellSections 1 (extract_code_cells cells)).get ⟨i, h1⟩ =
          "# Cell " ++ toString (1 + i) ++ "\n" ++
            pyRstrip ((extract_code_cells cells).get ⟨i, h2⟩)) := by
  constructor
  · intro h
    unfold generate_main_py
    simp [h]
  · intro h
    have hne : (extract_code_cells cells).isEmpty = false := by
      cases hcs : extract_code_cells cells with
      | nil => exact absurd hcs h
      | cons a l => rfl
    have hstr : ∀ c ∈ extract_code_cells cells, pyRstrip c ≠ "" :=
      fun c hc => pyStrip_ne_empty_rstrip c (extract_code_cells_stripped cells c hc)
    refine ⟨?_, specCellSections_length _ 1, fun i h1 h2 => specCellSections_get _ 1 i h1 h2⟩
    unfold generate_main_py build_main_content
    simp only [hne, Bool.false_eq_true, if_false]
    rw [buildSections_eq_spec _ 1 hstr]

/-- Concrete notebook document used as the C4 witness: one markdown
cell, two retained code cells, one all-whitespace code cell. -/
def demoCells : List NbCell :=
  [{ cell_type := some "markdown", source := .str "title" },
   { cell_type := some "code", source := .strList ["import os\n", "print(1)"] },
   { cell_type := some "code", source := .str "   \n" },
   { cell_type := some "code", source := .str "x = 2\n" }]

/-- Witness for C4: the marker theorem evaluated on the concrete
document, giving two sections numbered 1 and 2. -/
theorem generate_main_py_cell_markers_witness :
    extract_code_cells demoCells ≠ [] ∧
    generate_main_py demoCells =
      Except.ok "# Cell 1\nimport os\nprint(1)\n\n# Cell 2\nx = 2\n" := by
  refine ⟨by decide, ?_⟩
  have h := ((generate_main_py_cell_markers demoCells).2 (by decide)).1
  rw [h]
  rfl

/-! ## Model versions — app/api/v1/model_versions.py -/

/-- Allow-list of upload extensions (module constant ALLOWED_EXTENSIONS). -/
def ALLOWED_EXTENSIONS : List String :=
  [".pkl", ".h5", ".pt", ".joblib"]

/-- Upload size ceiling in bytes (module constant MAX_SIZE). -/
def MAX_SIZE : Nat :=
  500 * 1024 * 1024

/-- Magic-byte signature table (module constant MAGIC_BYTES); bytes are
Nat values below 256. -/
def MAGIC_BYTES (ext : String) : Option (List (List Nat)) :=
  if ext = ".pkl" then some [[0x80, 0x03], [0x80, 0x04], [0x80, 0x05]]
  else if ext = ".h5" then some [[0x89, 0x48, 0x44, 0x46]]
  else if ext = ".pt" then some [[0x50, 0x4B, 0x03, 0x04]]
  else if ext = ".joblib" then some [[0x80, 0x03], [0x80, 0x04]]
  else none

/-- Function validate_magic_bytes: an extension outside the table passes,
otherwise the content must start with one of the registered signatures. -/
def validate_magic_bytes (content : List Nat) (ext : String) : Bool :=
  match MAGIC_BYTES ext with
  | none => true
  | some magics => magics.any (fun m => m.isPrefixOf content)

/-- Extension computation of upload_model_version_internal: a dot plus
the last dot-separated component of the filename — the characters after
the last dot — when the filename contains a dot, otherwise the empty
string. -/
def fileExt (filename : String) : String :=
  if filename.data.contains '.' then
    "." ++ String.mk ((filename.data.reverse.takeWhile (fun c => c != '.')).reverse)
  else ""

/-- One row of the model_versions table, with the columns the verified
operations read or write. -/
structure ModelVersionRow where
  notebook_id : Nat
  version : Nat
  gcs_path : String
  size_bytes : Nat
  is_active : Bool
  deriving DecidableEq, Repr

/-- Errors raised by the model-version endpoints, with their HTTP codes. -/
inductive MvError where
  | notebookNotFound
  | versionNotFound
  | invalidFileType
  | fileTooLarge
  | invalidFileFormat
  deriving DecidableEq, Repr

/-- HTTP status attached to each raised error in the source. -/
def mvErrorStatus : MvError → Nat
  | .notebookNotFound => 404
  | .versionNotFound => 404
  | .invalidFileType => 400
  | .fileTooLarge => 400
  | .invalidFileFormat => 400

/-- Largest existing version number of a notebook (the descending
order_by plus first of the source). -/
def maxVersion (db : List ModelVersionRow) (nb : Nat) : Option Nat :=
  ((db.filter (fun r => r.notebook_id == nb)).map (fun r => r.version)).max?

/-- Object-store key layout of StorageService.upload_model_version. -/
def modelGcsPath (bucket : String) (user nb version : Nat) (ext : String) : String :=
  "gs://" ++ bucket ++ "/models/" ++ toString user ++ "/" ++ toString nb ++
    "/v" ++ toString version ++ "/model" ++ ext

/-- Next sequential version number: one more than the largest existing
version of the notebook, or 1 when none exists. -/
def nextVersion (db : List ModelVersionRow) (nb : Nat) : Nat :=
  match maxVersion db nb with
  | some m => m + 1
  | none => 1

/-- Row inserted by a successful upload: next sequential version, the
storage key layout, the content length, and the active flag set. -/
def uploadedRow (bucket : String) (user : Nat) (db : List ModelVersionRow)
    (nb : Nat) (filename : String) (content : List Nat) : ModelVersionRow :=
  { notebook_id := nb
    version := nextVersion db nb
    gcs_path := modelGcsPath bucket user nb (nextVersion db nb) (fileExt filename)
    size_bytes := content.length
    is_active := true }

/-- Function upload_model_version_internal: ownership check, extension
allow-list, size ceiling, magic-byte gate, next sequential version
number, then insertion of a row with the active flag set. On success it
returns the new table contents and the inserted row; on error no row is
inserted. The notebookExists flag models the ownership query. -/
def upload_model_version_internal (bucket : String) (user : Nat)
    (db : List ModelVersionRow) (notebookExists : Bool) (nb : Nat)
    (filename : String) (content : List Nat) :
    Except MvError (List ModelVersionRow × ModelVersionRow) :=
  if !notebookExists then .error .notebookNotFound
  else if fileExt filename ∉ ALLOWED_EXTENSIONS then .error .invalidFileType
  else if content.length > MAX_SIZE then .error .fileTooLarge
  else if !validate_magic_bytes content (fileExt filename) then .error .invalidFileFormat
  else
    .ok (db ++ [uploadedRow bucket user db nb filename content],
      uploadedRow bucket user db nb filename content)

/-- Attribute assignment after the bulk update of activate_model_version:
the first row matching the notebook and version gets the active flag. -/
def activateFirst : List ModelVersionRow → Nat → Nat → List ModelVersionRow
  | [], _, _ => []
  | r :: rest, nb, v =>
    if r.notebook_id == nb && r.version == v then { r with is_active := true } :: rest
    else r :: activateFirst rest nb v

/-- Endpoint activate_model_version: after the ownership and existence
checks, a bulk update clears the active flag on every version of the
notebook, then the fetched row (the first match) is set active. -/
def activate_model_version (db : List ModelVersionRow) (notebookExists : Bool)
    (nb v : Nat) : Except MvError (List ModelVersionRow) :=
  if !notebookExists then .error .notebookNotFound
  else if (db.filter (fun r => r.notebook_id == nb && r.version == v)).isEmpty then
    .error .versionNotFound
  else
    let cleared := db.map fun r =>
      if r.notebook_id == nb then { r with is_active := false } else r
    .ok (activateFirst cleared nb v)

/-- Number of active versions a notebook has in the table. -/
def activeCount (db : List ModelVersionRow) (nb : Nat) : Nat :=
  db.countP (fun r => r.notebook_id == nb && r.is_active)

/-- Concrete pickle-signature content used in counterexamples. -/
def pklBytes : List Nat :=
  [0x80, 0x04, 0x00]

/-- Table contents after two successful uploads to notebook 7 from an
empty table. -/
def afterTwoUploads : Option (List ModelVersionRow) :=
  match upload_model_version_internal "b" 1 [] true 7 "model.pkl" pklBytes with
  | .ok (db1, _) =>
    match upload_model_version_internal "b" 1 db1 true 7 "model.pkl" pklBytes with
    | .ok (db2, _) => some db2
    | .error _ => none
  | .error _ => none

/-- Counterexample to C1. The claim says that after any sequence of
upload and activate operations at most one of a notebook's versions has
the active flag set. Two consecutive uploads — a legal sequence — leave
two versions with the flag set, because the upload path inserts the new
row with the active flag and never clears the flag on siblings. -/
theorem upload_twice_leaves_two_active :
    afterTwoUploads.map (fun db => activeCount db 7) = some 2 := by
  rfl

theorem activateFirst_countP_false (db : List ModelVersionRow) (nb v : Nat)
    (hall : ∀ r ∈ db, (r.notebook_id == nb && r.is_active) = false)
    (hex : ∃ r ∈ db, (r.notebook_id == nb && r.version == v) = true) :
    activeCount (activateFirst db nb v) nb = 1 := by
  induction db with
  | nil => simp at hex
  | cons r rest ih =>
    have hr : (r.notebook_id == nb && r.is_active) = false :=
      hall r (List.mem_cons_self r rest)
    have hallr : ∀ x ∈ rest, (x.notebook_id == nb && x.is_active) = false :=
      fun x hx => hall x (List.mem_cons_of_mem r hx)
    simp only [activateFirst]
    by_cases hm : (r.notebook_id == nb && r.version == v) = true
    · rw [if_pos hm]
      have hnb : (r.notebook_id == nb) = true := by
        by_contra hco
        rw [Bool.not_eq_true] at hco
        simp [hco] at hm
      have hrest : rest.countP (fun x => x.notebook_id == nb && x.is_active) = 0 := by
        rw [List.countP_eq_zero]
        intro x hx
        simp [hallr x hx]
      simp [activeCount, List.countP_cons, hrest, hnb]
    · rw [if_neg hm]
      have hex' : ∃ x ∈ rest, (x.notebook_id == nb && x.version == v) = true := by
        rcases hex with ⟨x, hx, hxe⟩
        rcases List.mem_cons.mp hx with h | h
        · subst h
          exact absurd hxe hm
        · exact ⟨x, h, hxe⟩
      have hrec := ih hallr hex'
      simp only [activeCount, List.countP_cons] at hrec ⊢
      simp [hr, hrec]

theorem activateFirst_active_version (db : List ModelVersionRow) (nb v : Nat)
    (hall : ∀ r ∈ db, r.notebook_id = nb → r.is_active = false) :
    ∀ r ∈ activateFirst db nb v, r.notebook_id = nb → r.is_active = true → r.version = v := by
  induction db with
  | nil =>
    intro x hx
    simp [activateFirst] at hx
  | cons r rest ih =>
    intro x hx hxnb hxact
    simp only [activateFirst] at hx
    by_cases hm : (r.notebook_id == nb && r.version == v) = true
    · rw [if_pos hm] at hx
      rcases List.mem_cons.mp hx with h | h
      · subst h
        have hv : (r.version == v) = true := by
          by_contra hco
          rw [Bool.not_eq_true] at hco
          simp [hco] at hm
        show r.version = v
        simpa using hv
      · have hfalse := hall x (List.mem_cons_of_mem r h) hxnb
        rw [hfalse] at hxact
        exact absurd hxact (by simp)
    · rw [if_neg hm] at hx
      rcases List.mem_cons.mp hx with h | h
      · have hxnbr : r.notebook_id = nb := by
          rw [← h]
          exact hxnb
        have hfalse := hall r (List.mem_cons_self r rest) hxnbr
        rw [h, hfalse] at hxact
        exact absurd hxact (by simp)
      · exact ih (fun y hy => hall y (List.mem_cons_of_mem r hy)) x h hxnb hxact

/-- C1 as amended. Activating a version sets exactly one row of the
notebook active — every active row of the notebook carries the activated
version number and the notebook's active count is exactly one — while a
successful upload appends its new row with the active flag set and
leaves every pre-existing row, including active ones, untouched. -/
theorem activate_exactly_one_active (db : List ModelVersionRow)
    (nb v : Nat) (db' : List ModelVersionRow)
    (hact : activate_model_version db true nb v = .ok db')
    (bucket : String) (user : Nat) (udb : List ModelVersionRow)
    (unb : Nat) (filename : String) (content : List Nat)
    (udb' : List ModelVersionRow) (row : ModelVersionRow)
    (hup : upload_model_version_internal bucket user udb true unb filename content =
      .ok (udb', row)) :
    (activeCount db' nb = 1 ∧
      ∀ r ∈ db', r.notebook_id = nb → r.is_active = true → r.version = v) ∧
    (row.is_active = true ∧ udb' = udb ++ [row]) := by
  constructor
  · unfold activate_model_version at hact
    rw [if_neg (show ¬((!true) = true) by simp)] at hact
    by_cases hemp : (db.filter (fun r => r.notebook_id == nb && r.version == v)).isEmpty
    · rw [if_pos hemp] at hact
      exact absurd hact (by simp)
    · rw [if_neg hemp] at hact
      rw [Except.ok.injEq] at hact
      subst hact
      set cleared := db.map fun r =>
        if r.notebook_id == nb then { r with is_active := false } else r with hcl
      have hall : ∀ r ∈ cleared, (r.notebook_id == nb && r.is_active) = false := by
        intro r hr
        rw [hcl, List.mem_map] at hr
        obtain ⟨x, _, hx⟩ := hr
        by_cases hxnb : (x.notebook_id == nb) = true
        · rw [if_pos hxnb] at hx
          subst hx
          simp
        · rw [if_neg hxnb] at hx
          subst hx
          simp only [Bool.and_eq_false_iff]
          left
          simpa using hxnb
      have hallp : ∀ r ∈ cleared, r.notebook_id = nb → r.is_active = false := by
        intro r hr hnb
        have := hall r hr
        simpa [hnb] using this
      have hex : ∃ r ∈ cleared, (r.notebook_id == nb && r.version == v) = true := by
        have hne : db.filter (fun r => r.notebook_id == nb && r.version == v) ≠ [] := by
          intro hnil
          exact hemp (by simp [hnil])
        obtain ⟨x, hx⟩ := List.exists_mem_of_ne_nil _ hne
        have hx' := List.mem_filter.mp hx
        refine ⟨if x.notebook_id == nb then { x with is_active := false } else x, ?_, ?_⟩
        · rw [hcl]
          exact List.mem_map.mpr ⟨x, hx'.1, rfl⟩
        · have hcond := hx'.2
          by_cases hxnb : (x.notebook_id == nb) = true
          · rw [if_pos hxnb]
            simpa using hcond
          · rw [if_neg hxnb]
            exact hcond
      exact ⟨activateFirst_countP_false cleared nb v hall hex,
        activateFirst_active_version cleared nb v hallp⟩
  · unfold upload_model_version_internal at hup
    rw [if_neg (show ¬((!true) = true) by simp)] at hup
    split_ifs at hup
    rw [Except.ok.injEq, Prod.mk.injEq] at hup
    obtain ⟨h1, h2⟩ := hup
    subst h2
    exact ⟨rfl, h1.symm⟩

/-- Concrete two-row table with both versions active. -/
def demoTwoActive : List ModelVersionRow :=
  [{ notebook_id := 7, version := 1, gcs_path := "p1", size_bytes := 3, is_active := true },
   { notebook_id := 7, version := 2, gcs_path := "p2", size_bytes := 3, is_active := true }]

/-- Concrete table after activating version 1 of notebook 7. -/
def demoAfterActivate : List ModelVersionRow :=
  [{ notebook_id := 7, version := 1, gcs_path := "p1", size_bytes := 3, is_active := true },
   { notebook_id := 7, version := 2, gcs_path := "p2", size_bytes := 3, is_active := false }]

/-- Concrete row inserted by an upload into an empty table. -/
def demoUploadRow : ModelVersionRow :=
  { notebook_id := 7, version := 1, gcs_path := modelGcsPath "b" 1 7 1 ".pkl",
    size_bytes := 3, is_active := true }

/-- Witness for C1 as amended: a concrete activate on a two-row table
and a concrete upload, both evaluated. -/
theorem activate_exactly_one_active_witness :
    activate_model_version demoTwoActive true 7 1 = .ok demoAfterActivate ∧
    upload_model_version_internal "b" 1 [] true 7 "m.pkl" pklBytes =
      .ok ([demoUploadRow], demoUploadRow) ∧
    activeCount demoAfterActivate 7 = 1 ∧
    demoUploadRow.is_active = true := by
  refine ⟨by rfl, by rfl, ?_, ?_⟩
  · exact (activate_exactly_one_active demoTwoActive 7 1 demoAfterActivate (by rfl)
      "b" 1 [] 7 "m.pkl" pklBytes [demoUploadRow] demoUploadRow (by rfl)).1.1
  · exact (activate_exactly_one_active demoTwoActive 7 1 demoAfterActivate (by rfl)
      "b" 1 [] 7 "m.pkl" pklBytes [demoUploadRow] demoUploadRow (by rfl)).2.1

/-- C5. A pkl-extension upload whose content does not start with a
pickle signature is rejected with a 400 error, with no row inserted (the
operation returns an error, and only the success branch builds a row); a
content starting with the HDF5 signature passes the signature check for
the h5 extension; an extension outside the allow-list is rejected; and a
content larger than 500 MB is rejected. -/
theorem upload_validation_gate :
    (∀ (bucket : String) (user : Nat) (db : List ModelVersionRow) (nb : Nat)
      (filename : String) (content : List Nat),
      fileExt filename = ".pkl" →
      validate_magic_bytes content ".pkl" = false →
      ∃ e, upload_model_version_internal bucket user db true nb filename content =
        .error e ∧ mvErrorStatus e = 400) ∧
    (∀ rest : List Nat,
      validate_magic_bytes ([0x89, 0x48, 0x44, 0x46] ++ rest) ".h5" = true) ∧
    (∀ (bucket : String) (user : Nat) (db : List ModelVersionRow) (nb : Nat)
      (filename : String) (content : List Nat),
      fileExt filename ∉ ALLOWED_EXTENSIONS →
      upload_model_version_internal bucket user db true nb filename content =
        .error .invalidFileType) ∧
    (∀ (bucket : String) (user : Nat) (db : List ModelVersionRow) (nb : Nat)
      (filename : String) (content : List Nat),
      fileExt filename ∈ ALLOWED_EXTENSIONS →
      content.length > MAX_SIZE →
      upload_model_version_internal bucket user db true nb filename content =
        .error .fileTooLarge) := by
  refine ⟨?_, fun rest => by simp [validate_magic_bytes, MAGIC_BYTES, List.isPrefixOf], ?_, ?_⟩
  · intro bucket user db nb filename content hext hmagic
    unfold upload_model_version_internal
    rw [if_neg (show ¬((!true) = true) by simp), hext]
    have hmem : (".pkl" : String) ∈ ALLOWED_EXTENSIONS := by decide
    rw [if_neg (not_not_intro hmem)]
    by_cases hsize : content.length > MAX_SIZE
    · rw [if_pos hsize]
      exact ⟨.fileTooLarge, rfl, rfl⟩
    · rw [if_neg hsize, if_pos (by simp [hmagic])]
      exact ⟨.invalidFileFormat, rfl, rfl⟩
  · intro bucket user db nb filename content hnotmem
    unfold upload_model_version_internal
    rw [if_neg (show ¬((!true) = true) by simp), if_pos hnotmem]
  · intro bucket user db nb filename content hmem hsize
    unfold upload_model_version_internal
    rw [if_neg (show ¬((!true) = true) by simp), if_neg (not_not_intro hmem), if_pos hsize]

/-- Witness for C5: a pkl file whose single byte is not a pickle
signature is rejected with a 400 error. -/
theorem upload_validation_gate_witness :
    fileExt "m.pkl" = ".pkl" ∧ validate_magic_bytes [0] ".pkl" = false ∧
    ∃ e, upload_model_version_internal "b" 1 [] true 7 "m.pkl" [0] = .error e ∧
      mvErrorStatus e = 400 :=
  ⟨rfl, rfl, upload_validation_gate.1 "b" 1 [] 7 "m.pkl" [0] rfl rfl⟩

/-! ## Analysis endpoint — app/api/v1/notebooks.py, analyze_notebook -/

/-- Row of the analyses table with the columns the endpoint writes. -/
structure AnalysisRow where
  notebook_id : Nat
  health_score : Int
  issues : List Issue
  deriving DecidableEq, Repr

/-- Per-notebook state read and written by the analyze endpoint: the
lifecycle status string and the zero-or-one Analysis row (the analyses
table has a unique constraint on the notebook id). -/
structure NotebookAnalysisState where
  status : String
  analysis : Option AnalysisRow
  deriving DecidableEq, Repr

/-- Endpoint analyze_notebook: reject with 400 unless the status is
parsed; return the existing Analysis unchanged when one exists; else
store a new Analysis computed from the AI result (modelled by its issue
list) and set the status to analyzed. The returned pair is the response
row and the notebook state after the request. -/
def analyze_notebook (nb : Nat) (st : NotebookAnalysisState)
    (geminiIssues : List Issue) :
    Except Nat (AnalysisRow × NotebookAnalysisState) :=
  if st.status ≠ "parsed" then .error 400
  else
    match st.analysis with
    | some existing => .ok (existing, st)
    | none =>
      let a : AnalysisRow := {
        notebook_id := nb
        health_score := calculate_health_score geminiIssues
        issues := geminiIssues }
      .ok (a, { status := "analyzed", analysis := some a })

/-- Notebook state in which the analyze endpoint is first called. -/
def parsedNoAnalysis : NotebookAnalysisState :=
  { status := "parsed", analysis := none }

/-- Analysis row produced by the first analyze call of the
counterexample. -/
def firstAnalysis : AnalysisRow :=
  { notebook_id := 1, health_score := 100, issues := [] }

/-- Counterexample to C2. The claim says a second analyze request on a
notebook that already has an Analysis row succeeds and returns that row.
In the code the parsed-status precondition is checked before the
existing-analysis lookup, and a successful first analysis moves the
status to analyzed, so the second request is rejected with 400 instead
of returning the stored row. -/
theorem second_analyze_request_rejected :
    analyze_notebook 1 parsedNoAnalysis [] =
      .ok (firstAnalysis, { status := "analyzed", analysis := some firstAnalysis }) ∧
    analyze_notebook 1 { status := "analyzed", analysis := some firstAnalysis } [] =
      .error 400 :=
  ⟨rfl, rfl⟩

/-- C2 as amended. When the notebook status is parsed and an Analysis
row already exists, the endpoint returns that row unchanged without
recomputing and leaves the state untouched; but a successful first
analysis sets the status to analyzed, and because the parsed-status
check precedes the existing-analysis check, any later analyze request on
the resulting state is rejected with 400 rather than returning the
stored row. -/
theorem analyze_idempotent_only_in_parsed_status :
    (∀ (nb : Nat) (st : NotebookAnalysisState) (issues : List Issue) (a : AnalysisRow),
      st.status = "parsed" → st.analysis = some a →
      analyze_notebook nb st issues = .ok (a, st)) ∧
    (∀ (nb : Nat) (st : NotebookAnalysisState) (issues issues2 : List Issue)
      (a : AnalysisRow) (st2 : NotebookAnalysisState),
      st.analysis = none → analyze_notebook nb st issues = .ok (a, st2) →
      st2.status = "analyzed" ∧ analyze_notebook nb st2 issues2 = .error 400) := by
  constructor
  · intro nb st issues a hst hana
    unfold analyze_notebook
    rw [if_neg (by simp [hst]), hana]
  · intro nb st issues issues2 a st2 hnone hok
    unfold analyze_notebook at hok
    by_cases hst : st.status ≠ "parsed"
    · rw [if_pos hst] at hok
      exact Except.noConfusion hok
    · rw [if_neg hst, hnone] at hok
      rw [Except.ok.injEq, Prod.mk.injEq] at hok
      obtain ⟨_, h2⟩ := hok
      have hstat : st2.status = "analyzed" := by
        rw [← h2]
      refine ⟨hstat, ?_⟩
      unfold analyze_notebook
      rw [if_pos (by simp [hstat])]

/-- Witness for C2 as amended: both branches evaluated on concrete
states. -/
theorem analyze_idempotent_only_in_parsed_status_witness :
    analyze_notebook 2 { status := "parsed", analysis := some firstAnalysis } [] =
      .ok (firstAnalysis, { status := "parsed", analysis := some firstAnalysis }) ∧
    ({ status := "analyzed", analysis := some firstAnalysis } : NotebookAnalysisState).status =
      "analyzed" ∧
    analyze_notebook 1 { status := "analyzed", analysis := some firstAnalysis } [] =
      .error 400 := by
  refine ⟨?_, ?_, ?_⟩
  · exact analyze_idempotent_only_in_parsed_status.1 2
      { status := "parsed", analysis := some firstAnalysis } [] firstAnalysis rfl rfl
  · exact (analyze_idempotent_only_in_parsed_status.2 1 parsedNoAnalysis [] []
      firstAnalysis { status := "analyzed", analysis := some firstAnalysis } rfl rfl).1
  · exact (analyze_idempotent_only_in_parsed_status.2 1 parsedNoAnalysis [] []
      firstAnalysis { status := "analyzed", analysis := some firstAnalysis } rfl rfl).2

/-! ## Deployment pipeline build polling — app/api/v1/deployments.py,
process_deployment -/

/-- Outcome of the build-status polling loop: the build succeeded (with
the number of completed polls before success), the loop stopped on a
terminal failure status (failing the deployment with a message naming
that status), or the 600-second bound elapsed (failing the deployment
with the build-timeout message). -/
inductive BuildPollOutcome where
  | success (polls : Nat)
  | terminalFailure (st : String) (polls : Nat)
  | timeoutFailure
  deriving DecidableEq, Repr

/-- Polling loop of process_deployment. The source waits 10 seconds per
iteration against a 600-second bound, which is exactly 60 iterations;
the fuel argument counts the remaining iterations and statusAt gives the
provider status returned by the Nat-th get_build_status call. A SUCCESS
status breaks out of the loop; a status among FAILURE, CANCELLED and
TIMEOUT marks the deployment failed and stops; every other status is
slept on and polled again; an exhausted bound marks the deployment
failed with the timeout message. -/
def poll_build_status (statusAt : Nat → String) : Nat → Nat → BuildPollOutcome
  | _, 0 => .timeoutFailure
  | iter, fuel + 1 =>
    if statusAt iter = "SUCCESS" then .success iter
    else if statusAt iter ∈ ["FAILURE", "CANCELLED", "TIMEOUT"] then
      .terminalFailure (statusAt iter) iter
    else poll_build_status statusAt (iter + 1) fuel

/-- Polling loop entered with the full 600-second budget. -/
def run_deployment_build_poll (statusAt : Nat → String) : BuildPollOutcome :=
  poll_build_status statusAt 0 60

/-- Counterexample to C6. The claim says the INTERNAL_ERROR provider
status is treated as terminal by the deployment polling loop. A build
stuck on INTERNAL_ERROR is instead polled for the whole 600-second
budget and then recorded as a build timeout: the loop stops at the first
poll only for SUCCESS, FAILURE, CANCELLED and TIMEOUT. -/
theorem internal_error_not_terminal :
    run_deployment_build_poll (fun _ => "INTERNAL_ERROR") = .timeoutFailure ∧
    run_deployment_build_poll (fun _ => "INTERNAL_ERROR") ≠
      .terminalFailure "INTERNAL_ERROR" 0 := by
  refine ⟨by decide, by decide⟩

/-- C6 as amended. In the deployment polling loop the statuses SUCCESS,
FAILURE, CANCELLED and TIMEOUT are terminal at the first poll that
reports them; every other status — INTERNAL_ERROR included — is treated
as still running and polled again, and a build that never reports a
terminal status within the 60 polls of the 600-second bound is recorded
as failed with the timeout message. -/
theorem poll_terminal_statuses :
    (∀ statusAt : Nat → String, statusAt 0 = "SUCCESS" →
      run_deployment_build_poll statusAt = .success 0) ∧
    (∀ (statusAt : Nat → String) (st : String), statusAt 0 = st →
      st ∈ ["FAILURE", "CANCELLED", "TIMEOUT"] →
      run_deployment_build_poll statusAt = .terminalFailure st 0) ∧
    (∀ (statusAt : Nat → String) (iter fuel : Nat),
      statusAt iter ≠ "SUCCESS" → statusAt iter ∉ ["FAILURE", "CANCELLED", "TIMEOUT"] →
      poll_build_status statusAt iter (fuel + 1) =
        poll_build_status statusAt (iter + 1) fuel) ∧
    (∀ statusAt : Nat → String,
      (∀ i, i < 60 → statusAt i ∉ ["SUCCESS", "FAILURE", "CANCELLED", "TIMEOUT"]) →
      run_deployment_build_poll statusAt = .timeoutFailure) := by
  refine ⟨?_, ?_, ?_, ?_⟩
  · intro statusAt h
    unfold run_deployment_build_poll poll_build_status
    rw [if_pos h]
  · intro statusAt st h hmem
    unfold run_deployment_build_poll poll_build_status
    have hne : statusAt 0 ≠ "SUCCESS" := by
      rw [h]
      rintro rfl
      simp at hmem
    rw [if_neg hne, if_pos (h ▸ hmem), h]
  · intro statusAt iter fuel hne hnmem
    show (if statusAt iter = "SUCCESS" then BuildPollOutcome.success iter
      else if statusAt iter ∈ ["FAILURE", "CANCELLED", "TIMEOUT"] then
        BuildPollOutcome.terminalFailure (statusAt iter) iter
      else poll_build_status statusAt (iter + 1) fuel) =
      poll_build_status statusAt (iter + 1) fuel
    rw [if_neg hne, if_neg hnmem]
  · intro statusAt hall
    have key : ∀ (fuel iter : Nat), iter + fuel ≤ 60 →
        poll_build_status statusAt iter fuel = .timeoutFailure := by
      intro fuel
      induction fuel with
      | zero => intro iter _; rfl
      | succ n ih =>
        intro iter hle
        have hi : iter < 60 := by omega
        have hs := hall iter hi
        have h1 : statusAt iter ≠ "SUCCESS" := by
          intro h
          exact hs (by simp [h])
        have h2 : statusAt iter ∉ ["FAILURE", "CANCELLED", "TIMEOUT"] := by
          intro h
          apply hs
          simp only [List.mem_cons, List.mem_singleton] at h ⊢
          tauto
        unfold poll_build_status
        rw [if_neg h1, if_neg h2]
        exact ih (iter + 1) (by omega)
    exact key 60 0 (by omega)

/-- Witness for C6 as amended: a first poll reporting FAILURE stops the
loop at once, and a first poll reporting INTERNAL_ERROR moves to the
next poll. -/
theorem poll_terminal_statuses_witness :
    run_deployment_build_poll (fun _ => "FAILURE") = .terminalFailure "FAILURE" 0 ∧
    poll_build_status (fun _ => "INTERNAL_ERROR") 0 60 =
      poll_build_status (fun _ => "INTERNAL_ERROR") 1 59 := by
  constructor
  · exact poll_terminal_statuses.2.1 (fun _ => "FAILURE") "FAILURE" rfl (by decide)
  · exact poll_terminal_statuses.2.2.1 (fun _ => "INTERNAL_ERROR") 0 59
      (by decide) (by decide)

/-! ## Notebook upload — app/api/v1/notebooks.py, upload_notebook, and
app/core/notebook_service.py, NotebookService.save_uploaded_file -/

/-- Python str.endswith, computed on the character lists. -/
def strEndsWith (s suffix : String) : Bool :=
  suffix.data.isSuffixOf s.data

/-- Step function of Python str.replace: replace non-overlapping
occurrences left to right, with fuel bounding the recursion (the source
only calls replace with a non-empty pattern, for which the fuel given in
pyReplace is enough to finish the scan). -/
def replaceAllAux (old new : List Char) : Nat → List Char → List Char
  | 0, l => l
  | _, [] => []
  | fuel + 1, c :: rest =>
    if old.isPrefixOf (c :: rest) then
      new ++ replaceAllAux old new fuel ((c :: rest).drop old.length)
    else c :: replaceAllAux old new fuel rest

/-- Python str.replace with a non-empty pattern, computed on the
character lists. -/
def pyReplace (s old new : String) : String :=
  ⟨replaceAllAux old.data new.data s.data.length s.data⟩

/-- Columns of the notebooks table written by the upload endpoint. -/
structure NotebookRow where
  name : String
  filename : String
  file_path : String
  user_id : Nat
  status : String
  deriving DecidableEq, Repr

/-- Storage key layout of NotebookService.save_uploaded_file. -/
def notebookBlobName (user nbId : Nat) (filename : String) : String :=
  "notebooks/" ++ toString user ++ "/" ++ toString nbId ++ "/" ++ filename

/-- Observable result of the upload endpoint: the response plus the row
as last committed to the database. -/
inductive UploadNotebookOutcome where
  | rejectedExtension
  | storageFailed (committed : NotebookRow)
  | uploaded (committed : NotebookRow)
  deriving DecidableEq, Repr

/-- Endpoint upload_notebook: reject non-ipynb filenames before any row
exists; commit a row with status uploading and an empty file path; then
write the bytes to object storage (storageUpload abstracts the store,
keyed by blob name) and, only if that write returns, commit the row
again with the storage path and status uploaded. A storage fault
propagates after the first commit, leaving the uploading row in
place. -/
def upload_notebook (user nbId : Nat) (filename : String)
    (storageUpload : String → Except String String) : UploadNotebookOutcome :=
  if !(strEndsWith filename ".ipynb") then .rejectedExtension
  else
    let row1 : NotebookRow := {
      name := pyReplace filename ".ipynb" ""
      filename := filename
      file_path := ""
      user_id := user
      status := "uploading" }
    match storageUpload (notebookBlobName user nbId filename) with
    | .error _ => .storageFailed row1
    | .ok path => .uploaded { row1 with file_path := path, status := "uploaded" }

/-- C9. The upload endpoint commits the notebook row with status
uploading and an empty file path before the storage write: when the
storage write faults, that committed row is what persists, and the row
reaches status uploaded with the storage path only when the write
succeeds. -/
theorem upload_notebook_commit_order :
    (∀ (user nbId : Nat) (filename msg : String)
      (storageUpload : String → Except String String),
      strEndsWith filename ".ipynb" = true →
      storageUpload (notebookBlobName user nbId filename) = .error msg →
      upload_notebook user nbId filename storageUpload =
        .storageFailed {
          name := pyReplace filename ".ipynb" ""
          filename := filename
          file_path := ""
          user_id := user
          status := "uploading" }) ∧
    (∀ (user nbId : Nat) (filename path : String)
      (storageUpload : String → Except String String),
      strEndsWith filename ".ipynb" = true →
      storageUpload (notebookBlobName user nbId filename) = .ok path →
      upload_notebook user nbId filename storageUpload =
        .uploaded {
          name := pyReplace filename ".ipynb" ""
          filename := filename
          file_path := path
          user_id := user
          status := "uploaded" }) := by
  constructor
  · intro user nbId filename msg storageUpload hext hst
    unfold upload_notebook
    rw [if_neg (by simp [hext]), hst]
  · intro user nbId filename path storageUpload hext hst
    unfold upload_notebook
    rw [if_neg (by simp [hext]), hst]

/-- Witness for C9: a failing store leaves the uploading row, a
succeeding store produces the uploaded row. -/
theorem upload_notebook_commit_order_witness :
    (strEndsWith "nb.ipynb" ".ipynb" = true) ∧
    upload_notebook 1 5 "nb.ipynb" (fun _ => .error "boom") =
      .storageFailed {
        name := "nb"
        filename := "nb.ipynb"
        file_path := ""
        user_id := 1
        status := "uploading" } ∧
    upload_notebook 1 5 "nb.ipynb" (fun b => .ok ("gs://bkt/" ++ b)) =
      .uploaded {
        name := "nb"
        filename := "nb.ipynb"
        file_path := "gs://bkt/notebooks/1/5/nb.ipynb"
        user_id := 1
        status := "uploaded" } := by
  refine ⟨by decide, ?_, ?_⟩
  · have h := upload_notebook_commit_order.1 1 5 "nb.ipynb" "boom"
      (fun _ => .error "boom") (by decide) rfl
    rw [h]
    rfl
  · have h := upload_notebook_commit_order.2 1 5 "nb.ipynb" "gs://bkt/notebooks/1/5/nb.ipynb"
      (fun b => .ok ("gs://bkt/" ++ b)) (by decide) (by rfl)
    rw [h]
    rfl

/-! ## Inbound webhooks — app/api/v1/webhooks.py and app/config.py -/

/-- Settings fields the webhook routes read. The Settings class of
app/config.py declares github_webhook_secret (optional, default None)
and declares no gitlab_webhook_secret field at all; the model keeps the
github field and records the absence of the gitlab field in
gitlab_webhook_try below. An unset or empty secret is modelled as
none (Python truthiness treats None and the empty string alike here). -/
structure WebhookSettings where
  github_webhook_secret : Option String
  deriving DecidableEq, Repr

/-- Python truthiness of an optional string: present and non-empty. -/
def pyTruthy (o : Option String) : Bool :=
  !(o.getD "" == "")

/-- One commit entry of a push payload. -/
structure PushCommit where
  added : List String
  modified : List String
  deriving DecidableEq, Repr

/-- Parsed push payload shape read by handle_github_push (ref,
repository.full_name, commits); a missing key is none. -/
structure PushPayload where
  ref : Option String
  repo_full_name : Option String
  commits : List PushCommit
  deriving DecidableEq, Repr

/-- Result value returned by handle_github_push. -/
inductive PushOutcome where
  | ignoredMissingFields
  | ignoredNoNotebooks (branch : String)
  | detected (repo : String) (branch : String) (notebooks : List String)
  deriving DecidableEq, Repr

/-- Branch name computation: the Python replace of the refs-heads
marker with the empty string. -/
def stripRefsHeads (ref : String) : String :=
  pyReplace ref "refs/heads/" ""

/-- Notebook files added or modified across the commit list, in commit
order, added before modified within each commit (the endpoint response
deduplicates this list through a set; the claims do not depend on the
deduplicated form). -/
def changedNotebooks (commits : List PushCommit) : List String :=
  commits.foldl
    (fun acc c => acc ++ (c.added ++ c.modified).filter (fun f => strEndsWith f ".ipynb"))
    []

/-- Function handle_github_push: ignore payloads missing ref or
repository name (Python falsiness, so empty strings are also missing),
ignore pushes touching no notebook file, otherwise report the detected
notebook files. The handler performs no database write. -/
def handle_github_push (p : PushPayload) : PushOutcome :=
  if !(pyTruthy p.ref) || !(pyTruthy p.repo_full_name) then .ignoredMissingFields
  else
    let branch := stripRefsHeads (p.ref.getD "")
    if (changedNotebooks p.commits).isEmpty then .ignoredNoNotebooks branch
    else .detected (p.repo_full_name.getD "") branch (changedNotebooks p.commits)

/-- Faults that can escape the try block of a webhook route. -/
inductive WebhookFault where
  | httpError (code : Nat) (detail : String)
  | jsonDecodeError
  | attributeError
  deriving DecidableEq, Repr

/-- Response value of the GitHub webhook route on the non-fault path. -/
inductive GithubEventResult where
  | pong
  | ignoredEvent (event : Option String)
  | push (r : PushOutcome)
  deriving DecidableEq, Repr

/-- Outcome of a whole route: a JSON response or an HTTP error status. -/
inductive HttpOutcome (α : Type) where
  | ok (value : α)
  | httpError (code : Nat)
  deriving DecidableEq, Repr

/-- Try block of github_webhook. The signature header is checked only
when both the configured secret and the header are truthy, and the check
happens before the JSON body parse; a mismatch raises a 403 HTTP fault.
The hmacHex parameter abstracts the HMAC-SHA256 hexdigest over the raw
body, and the payload parameter is the JSON parse result of that body
(none for a parse failure). -/
def github_webhook_try (hmacHex : String → String → String)
    (secret sigHeader event : Option String) (body : String)
    (payload : Option PushPayload) : Except WebhookFault GithubEventResult :=
  if pyTruthy secret && pyTruthy sigHeader then
    if "sha256=" ++ hmacHex (secret.getD "") body ≠ sigHeader.getD "" then
      .error (.httpError 403 "Invalid signature")
    else
      match payload with
      | none => .error .jsonDecodeError
      | some p =>
        if event == some "push" then .ok (.push (handle_github_push p))
        else if event == some "ping" then .ok .pong
        else .ok (.ignoredEvent event)
  else
    match payload with
    | none => .error .jsonDecodeError
    | some p =>
      if event == some "push" then .ok (.push (handle_github_push p))
      else if event == some "ping" then .ok .pong
      else .ok (.ignoredEvent event)

/-- Route github_webhook: the except clauses around the try block. A
JSON decode fault maps to 400; every other fault — the raised 403
included, because the blanket except Exception clause catches
HTTPException — is re-raised as a 500. -/
def github_webhook (hmacHex : String → String → String)
    (settings : WebhookSettings) (sigHeader event : Option String) (body : String)
    (payload : Option PushPayload) : HttpOutcome GithubEventResult :=
  match github_webhook_try hmacHex settings.github_webhook_secret sigHeader event
      body payload with
  | .ok r => .ok r
  | .error .jsonDecodeError => .httpError 400
  | .error (.httpError _ _) => .httpError 500
  | .error .attributeError => .httpError 500

/-- Try block of gitlab_webhook. Its first statement reads
settings.gitlab_webhook_secret, but the Settings class of app/config.py
declares no such field and ignores extra values, so the attribute lookup
raises AttributeError on every request before any token check or body
handling. -/
def gitlab_webhook_try (_settings : WebhookSettings) (_tokenHeader _event : Option String)
    (_payload : Option PushPayload) : Except WebhookFault GithubEventResult :=
  .error .attributeError

/-- Route gitlab_webhook: the single blanket except clause maps every
fault of the try block to a 500 response. -/
def gitlab_webhook (settings : WebhookSettings) (tokenHeader event : Option String)
    (payload : Option PushPayload) : HttpOutcome GithubEventResult :=
  match gitlab_webhook_try settings tokenHeader event payload with
  | .ok r => .ok r
  | .error _ => .httpError 500

/-- Concrete push payload used by the webhook counterexamples. -/
def demoPush : PushPayload :=
  { ref := some "refs/heads/main"
    repo_full_name := some "alice/repo"
    commits := [{ added := ["model.ipynb"], modified := [] }] }

/-- Counterexample to C7. The claim says a GitHub webhook request whose
signature header does not match the HMAC of the body is rejected with
403. On a concrete mismatching request the route answers 500, not 403:
the 403 raised inside the try block is caught by the blanket except
clause and re-raised as a 500. No database mutation occurs either way. -/
theorem bad_signature_yields_500 :
    github_webhook (fun _ _ => "aa") { github_webhook_secret := some "s" }
      (some "sha256=bb") (some "push") "body" (some demoPush) = .httpError 500 ∧
    github_webhook (fun _ _ => "aa") { github_webhook_secret := some "s" }
      (some "sha256=bb") (some "push") "body" (some demoPush) ≠ .httpError 403 := by
  exact ⟨rfl, by decide⟩

/-- C7 as amended. A GitHub webhook request carrying a truthy signature
header that does not match the HMAC-SHA256 of the configured secret over
the body is rejected before the body is parsed or any handler runs — no
database mutation can occur — but the response status is 500, the
blanket exception clause having converted the 403 raised by the
signature check. -/
theorem bad_signature_rejected_before_processing
    (hmacHex : String → String → String) (settings : WebhookSettings)
    (sig : String) (event : Option String) (body : String)
    (payload : Option PushPayload)
    (hsecret : pyTruthy settings.github_webhook_secret = true)
    (hsig : pyTruthy (some sig) = true)
    (hmismatch : "sha256=" ++ hmacHex (settings.github_webhook_secret.getD "") body ≠ sig) :
    github_webhook_try hmacHex settings.github_webhook_secret (some sig) event body
        payload = .error (.httpError 403 "Invalid signature") ∧
    github_webhook hmacHex settings (some sig) event body payload = .httpError 500 ∧
    ∀ r, github_webhook hmacHex settings (some sig) event body payload ≠ .ok r := by
  have htry : github_webhook_try hmacHex settings.github_webhook_secret (some sig) event
      body payload = .error (.httpError 403 "Invalid signature") := by
    unfold github_webhook_try
    rw [if_pos (by rw [hsecret, hsig]; rfl)]
    rw [if_pos (by simpa using hmismatch)]
  refine ⟨htry, ?_, ?_⟩
  · unfold github_webhook
    rw [htry]
  · intro r
    unfold github_webhook
    rw [htry]
    exact fun h => HttpOutcome.noConfusion h

/-- Witness for C7 as amended: the theorem evaluated on a concrete
mismatching request. -/
theorem bad_signature_rejected_before_processing_witness :
    pyTruthy (some "s") = true ∧
    github_webhook (fun _ _ => "aa") { github_webhook_secret := some "s" }
      (some "sha256=zz") (some "push") "body" (some demoPush) = .httpError 500 :=
  ⟨rfl, (bad_signature_rejected_before_processing (fun _ _ => "aa")
    { github_webhook_secret := some "s" } "sha256=zz" (some "push") "body"
    (some demoPush) rfl rfl (by decide)).2.1⟩

/-- Counterexample to C8. The claim says the GitLab endpoint behaves the
same way as the GitHub one, skipping token verification when the token
header is absent and processing the push. On a concrete tokenless GitLab
push request the GitHub route processes the push while the GitLab route
answers 500: its handler reads a gitlab_webhook_secret setting that the
Settings class does not declare, so every GitLab request dies on
AttributeError inside the blanket except clause. -/
theorem gitlab_endpoint_always_500 :
    github_webhook (fun _ _ => "aa") { github_webhook_secret := some "s" }
      none (some "push") "body" (some demoPush) =
      .ok (.push (.detected "alice/repo" "main" ["model.ipynb"])) ∧
    gitlab_webhook { github_webhook_secret := some "s" } none (some "Push Hook")
      (some demoPush) = .httpError 500 := by
  exact ⟨rfl, rfl⟩

/-- C8 as amended. For the GitHub endpoint: when the signature header is
absent the verification is skipped entirely — even with a configured
secret — and a push payload is processed as if verified; the 403
rejection is raised by the try block exactly when the secret is
configured, the header is present and truthy, and the HMAC does not
match. The GitLab route, whose code follows the same pattern, instead
answers 500 on every request because it reads a gitlab_webhook_secret
setting absent from the Settings class. -/
theorem missing_signature_header_skips_verification :
    (∀ (hmacHex : String → String → String) (settings : WebhookSettings)
      (body : String) (p : PushPayload),
      github_webhook hmacHex settings none (some "push") body (some p) =
        .ok (.push (handle_github_push p))) ∧
    (∀ (hmacHex : String → String → String) (secret sigHeader event : Option String)
      (body : String) (payload : Option PushPayload),
      github_webhook_try hmacHex secret sigHeader event body payload =
          .error (.httpError 403 "Invalid signature") ↔
        (pyTruthy secret = true ∧ pyTruthy sigHeader = true ∧
          "sha256=" ++ hmacHex (secret.getD "") body ≠ sigHeader.getD "")) ∧
    (∀ (settings : WebhookSettings) (tokenHeader event : Option String)
      (payload : Option PushPayload),
      gitlab_webhook settings tokenHeader event payload = .httpError 500) := by
  refine ⟨?_, ?_, fun _ _ _ _ => rfl⟩
  · intro hmacHex settings body p
    unfold github_webhook github_webhook_try
    rw [if_neg (by simp [pyTruthy])]
    rfl
  · intro hmacHex secret sigHeader event body payload
    constructor
    · intro h
      unfold github_webhook_try at h
      by_cases hc : (pyTruthy secret && pyTruthy sigHeader) = true
      · rw [if_pos hc] at h
        obtain ⟨h1, h2⟩ := Bool.and_eq_true_iff.mp hc
        by_cases hm : "sha256=" ++ hmacHex (secret.getD "") body ≠ sigHeader.getD ""
        · exact ⟨h1, h2, hm⟩
        · rw [if_neg hm] at h
          cases payload with
          | none => exact absurd h (by simp)
          | some p =>
            simp only [] at h
            split_ifs at h
      · rw [if_neg hc] at h
        cases payload with
        | none => exact absurd h (by simp)
        | some p =>
          simp only [] at h
          split_ifs at h
    · rintro ⟨h1, h2, hm⟩
      unfold github_webhook_try
      rw [if_pos (by rw [h1, h2]; rfl), if_pos hm]

/-- Witness for C8 as amended: a concrete tokenless GitHub push request
with a configured secret is processed, and the 403 condition evaluated
on a concrete mismatch. -/
theorem missing_signature_header_skips_verification_witness :
    github_webhook (fun _ _ => "aa") { github_webhook_secret := some "s" }
      none (some "push") "body" (some demoPush) =
      .ok (.push (handle_github_push demoPush)) ∧
    (github_webhook_try (fun _ _ => "aa") (some "s") (some "sha256=zz") (some "push")
        "body" (some demoPush) = .error (.httpError 403 "Invalid signature") ↔
      (pyTruthy (some "s") = true ∧ pyTruthy (some "sha256=zz") = true ∧
        "sha256=" ++ (fun _ _ => "aa") ((some "s").getD "") "body" ≠
          (some "sha256=zz").getD "")) :=
  ⟨missing_signature_header_skips_verification.1 (fun _ _ => "aa")
    { github_webhook_secret := some "s" } "body" demoPush,
   missing_signature_header_skips_verification.2.1 (fun _ _ => "aa") (some "s")
    (some "sha256=zz") (some "push") "body" (some demoPush)⟩

end Codematics
